import Mathlib

/-!
Verification of the Aino biological-animation engine core against its
specification.  The C++ headers under the repository root are shallowly
embedded: every `float` is modelled as an exact rational (`ℚ`), mutable
objects become explicit state-passing functions, and the C library
function `std::exp` (whose values are irrational) is abstracted as a
parameter `fexp : ℚ → ℚ`; every theorem that touches an exponential is
quantified over all such `fexp`, so it holds in particular for the real
exponential (and for the floating-point one).  `std::clamp`, `std::max`,
`std::min` are modelled exactly.
-/

/-- Exact model of `std::clamp(v, lo, hi)`. -/
def clampQ (v lo hi : ℚ) : ℚ :=
  if v < lo then lo else if hi < v then hi else v

/-! ## Emotion model (`emotion_model.hpp`) -/

/-- `EmotionProfile::Primary`: the eight primary emotion channels, all
default-initialised to `0.0f` in the source. -/
structure Primary where
  joy : ℚ := 0
  sadness : ℚ := 0
  anger : ℚ := 0
  fear : ℚ := 0
  surprise : ℚ := 0
  disgust : ℚ := 0
  trust : ℚ := 0
  anticipation : ℚ := 0
  deriving DecidableEq

/-- `EmotionProfile::Social`: the eight social emotion channels. -/
structure Social where
  guilt : ℚ := 0
  shame : ℚ := 0
  pride : ℚ := 0
  envy : ℚ := 0
  gratitude : ℚ := 0
  love : ℚ := 0
  hate : ℚ := 0
  anxiety : ℚ := 0
  deriving DecidableEq

/-- `EmotionProfile::Mood`: the four mood channels. -/
structure Mood where
  depression : ℚ := 0
  stress : ℚ := 0
  valence : ℚ := 0
  arousal : ℚ := 0
  deriving DecidableEq

/-- `EmotionProfile`: primary + social + mood, all zero by default. -/
structure EmotionProfile where
  primary : Primary := {}
  social : Social := {}
  mood : Mood := {}
  deriving DecidableEq

/-- `MoodDynamics` state: the two accumulators. -/
structure MoodState where
  depression_accumulator : ℚ := 0
  stress_accumulator : ℚ := 0
  deriving DecidableEq

/-- `MoodDynamics::update(dt, instant_emotion)`: accumulate depression and
stress, decay exponentially, clamp to `[0,1]`.  `fexp` abstracts
`std::exp`. -/
def MoodDynamics.update (fexp : ℚ → ℚ) (dt : ℚ) (instant : EmotionProfile)
    (st : MoodState) : MoodState :=
  let dep1 := if 7/10 < instant.primary.sadness
    then st.depression_accumulator + dt * (1/10)
    else st.depression_accumulator - dt * (1/100)
  let str1 := if 3/5 < instant.primary.fear
    then st.stress_accumulator + dt * (1/2)
    else st.stress_accumulator - dt * (1/5)
  let dep2 := dep1 * fexp (-dt * (693/1000) / 86400)
  let str2 := str1 * fexp (-dt * (693/1000) / 3600)
  { depression_accumulator := clampQ dep2 0 1
    stress_accumulator := clampQ str2 0 1 }

/-- `MoodDynamics::get_state()`. -/
def MoodDynamics.get_state (st : MoodState) : Mood :=
  { depression := st.depression_accumulator
    stress := st.stress_accumulator
    valence := 1 - st.depression_accumulator * (1/2)
    arousal := st.stress_accumulator * (3/10) }

/-! ## Cognitive appraisal (`cognitive_appraisal.hpp`) -/

/-- `Stimulus`: the source defaults `familiarity` and `predictability`
to `0.5f`; `position` is a `Vec3`, never read by the appraiser. -/
structure Stimulus where
  category : String
  intensity : ℚ := 0
  position : ℚ × ℚ × ℚ := (0, 0, 0)
  urgency : ℚ := 0
  familiarity : ℚ := 1/2
  predictability : ℚ := 1/2
  deriving DecidableEq

/-- The part of `aino_animation::AnimationContext` that the appraiser
reads: the string→float parameter map and the embedded emotion state. -/
structure AnimationContext where
  parameters : List (String × ℚ) := []
  emotion : EmotionProfile := {}
  deriving DecidableEq

/-- Key lookup in a string→float map (`std::map::find`): first matching
key, `none` when absent. -/
def lookupQ (key : String) : List (String × ℚ) → Option ℚ
  | [] => none
  | (k, v) :: rest => if k = key then some v else lookupQ key rest

/-- Lookup in the context parameter map with a default, modelling the
`find` / `count` idioms used in the source. -/
def AnimationContext.param (ctx : AnimationContext) (key : String) (d : ℚ) : ℚ :=
  (lookupQ key ctx.parameters).getD d

/-- `CognitiveAppraiser::AppraisalOutput`. -/
structure AppraisalOutput where
  emotion : EmotionProfile := {}
  coping_potential : ℚ := 0
  goal_relevance : ℚ := 0
  deriving DecidableEq

/-- `CognitiveAppraiser::primary_appraisal(stim)`: category-keyed rules;
no clamping is applied anywhere in this function. -/
def CognitiveAppraiser.primary_appraisal (stim : Stimulus) : Primary :=
  if stim.category = "threat" ∨ stim.category = "enemy" then
    { fear := stim.intensity * (2 - stim.familiarity)
      anger := stim.intensity * (1 - stim.predictability) * (1/2)
      surprise := (1 - stim.predictability) * stim.urgency }
  else if stim.category = "reward" ∨ stim.category = "friend" then
    { joy := stim.intensity
      trust := stim.intensity * stim.familiarity }
  else if stim.category = "loss" then
    { sadness := stim.intensity }
  else {}

/-- `CognitiveAppraiser::secondary_appraisal(stim, ctx)`. -/
def CognitiveAppraiser.secondary_appraisal (stim : Stimulus)
    (ctx : AnimationContext) : ℚ :=
  let self_efficacy := ctx.param "self_efficacy" (1/2)
  let resource := 1 - ctx.emotion.mood.stress * (1/2)
  let controllability := stim.predictability * (3/5) + stim.familiarity * (2/5)
  self_efficacy * resource * controllability

/-- `CognitiveAppraiser::appraise(stim, ctx)`: primary + secondary
appraisal, anxiety/shame when coping is low, mood modulation of fear,
goal-relevance gate that zeroes the whole emotion. -/
def CognitiveAppraiser.appraise (stim : Stimulus) (ctx : AnimationContext) :
    AppraisalOutput :=
  let prim := CognitiveAppraiser.primary_appraisal stim
  let coping := CognitiveAppraiser.secondary_appraisal stim ctx
  let social : Social :=
    if coping < 3/10 ∧ 3/5 < stim.intensity then
      { anxiety := (1 - coping) * stim.intensity
        shame := (1 - ctx.param "self_esteem" (1/2)) * stim.intensity }
    else {}
  let prim2 := { prim with fear := prim.fear * (1 + ctx.emotion.mood.stress * (1/2)) }
  let gr := stim.urgency * stim.intensity
  let emo : EmotionProfile :=
    if gr < 1/5 then {} else { primary := prim2, social := social }
  { emotion := emo, coping_potential := coping, goal_relevance := gr }

/-! ## Actor emotion phase (`physiological_actor.hpp`) -/

/-- `PhysiologicalActor::blend_emotions_max(base, add)`: the source takes
the component-wise max of `joy`, `sadness`, `anger`, `fear` only; the
remaining four primary channels and all social and mood channels are left
untouched (the body ends in the elided comment `// ... 其他情绪分量`). -/
def PhysiologicalActor.blend_emotions_max (base add : EmotionProfile) :
    EmotionProfile :=
  { base with primary :=
    { base.primary with
      joy := max base.primary.joy add.primary.joy
      sadness := max base.primary.sadness add.primary.sadness
      anger := max base.primary.anger add.primary.anger
      fear := max base.primary.fear add.primary.fear } }

/-- Step 1 of `PhysiologicalActor::update`: fold the stimuli over a fresh
profile.  Each iteration builds a temporary context with
`self_efficacy = 0.7`, `self_esteem = 0.8` and the running profile's
`mood.stress`, appraises, and max-blends when `goal_relevance > 0.2`. -/
def PhysiologicalActor.processStimuli (stimuli : List Stimulus) : EmotionProfile :=
  stimuli.foldl (fun cur stim =>
    let ctx : AnimationContext :=
      { parameters := [("self_efficacy", 7/10), ("self_esteem", 4/5)]
        emotion := { mood := { stress := cur.mood.stress } } }
    let result := CognitiveAppraiser.appraise stim ctx
    if 1/5 < result.goal_relevance then
      PhysiologicalActor.blend_emotions_max cur result.emotion
    else cur) {}

/-- Stimulus extraction in `PhysiologicalActor::on_evaluate`: a
`threat_distance` parameter produces one stimulus of category `"threat"`
with intensity `1/(d+1)` and urgency from `threat_urgency` (default
`0.5`); the remaining stimulus fields keep their defaults. -/
def PhysiologicalActor.buildStimuli (params : List (String × ℚ)) : List Stimulus :=
  match lookupQ "threat_distance" params with
  | some d =>
      [{ category := "threat"
         intensity := 1 / (d + 1)
         position := (0, 0, 0)
         urgency := (lookupQ "threat_urgency" params).getD (1/2) }]
  | none => []

/-- Result of one evaluated frame, restricted to the emotion path: the
stimuli built from the context, the actor's `current_emotion` after
steps 1–2 of `update`, and the activation handed to the trapezius in
`apply_emotion_to_muscles` (step 4), which is `0.7 · fear`. -/
structure FrameEmotionResult where
  stimuli : List Stimulus
  emotion : EmotionProfile
  trapActivation : ℚ
  moodSt : MoodState

/-- One `on_evaluate`/`update` frame, emotion path only: build the
stimuli, run step 1 (appraise + max-blend), step 2 (mood update and
write-back), and compute the trapezius override activation of step 4. -/
def PhysiologicalActor.emotionFrame (fexp : ℚ → ℚ) (dt : ℚ)
    (params : List (String × ℚ)) (mood0 : MoodState) : FrameEmotionResult :=
  let stimuli := PhysiologicalActor.buildStimuli params
  let instant := PhysiologicalActor.processStimuli stimuli
  let mood1 := MoodDynamics.update fexp dt instant mood0
  let emo := { instant with mood := MoodDynamics.get_state mood1 }
  { stimuli := stimuli
    emotion := emo
    trapActivation := emo.primary.fear * (7/10)
    moodSt := mood1 }

/-! ## Spinal circuit (`spinal_circuit.h`) -/

/-- `MotorNeuronPool::Neuron`. -/
structure Neuron where
  firing_rate : ℚ := 0
  recruitment_threshold : ℚ := 0
  fatigue : ℚ := 0
  after_hyperpolarization : ℚ := 0
  deriving DecidableEq

/-- `MotorNeuronPool` state: the neuron vector and the input signals.
The constructor's recruitment thresholds are `pow(i/100, 1.5)` — mostly
irrational — so pools are modelled over an arbitrary neuron list and the
constructor over an arbitrary threshold assignment `thr`; every theorem
quantifying over pools or over `thr` covers the source's values. -/
structure MotorNeuronPool where
  neurons : List Neuron
  central_drive : ℚ := 0
  spindle_feedback : ℚ := 0
  ib_inhibition : ℚ := 0
  renshaw_inhibition : ℚ := 0
  setpoint : ℚ := 0
  tendon_force : ℚ := 0
  deriving DecidableEq

/-- A freshly constructed neuron with the given recruitment threshold. -/
def mkNeuron (t : ℚ) : Neuron :=
  { firing_rate := 0, recruitment_threshold := t, fatigue := 0
    after_hyperpolarization := 0 }

/-- `MotorNeuronPool()` constructor: 100 neurons; `thr i` stands for
`std::pow(i / 100.0f, 1.5f)` (exactly `0` at `i = 0`). -/
def mkPool (thr : ℕ → ℚ) : MotorNeuronPool :=
  { neurons := (List.range 100).map (fun i => mkNeuron (thr i)) }

/-- Body of the per-neuron loop in `MotorNeuronPool::step`. -/
def MotorNeuronPool.neuronStep (total_drive dt : ℚ) (nr : Neuron) : Neuron :=
  let drive := total_drive - nr.recruitment_threshold
  if 0 < drive ∧ nr.after_hyperpolarization ≤ 0 then
    let fr := clampQ (50 * drive * (1 - nr.fatigue)) 0 200
    { firing_rate := fr
      recruitment_threshold := nr.recruitment_threshold
      fatigue := nr.fatigue + fr * dt * (1/10000)
      after_hyperpolarization := 1/5 }
  else
    { firing_rate := 0
      recruitment_threshold := nr.recruitment_threshold
      fatigue := max (nr.fatigue - dt * (1/100)) 0
      after_hyperpolarization := nr.after_hyperpolarization - dt }

/-- `MotorNeuronPool::step(dt)`: compute the clamped total drive once,
then update every neuron. -/
def MotorNeuronPool.step (dt : ℚ) (p : MotorNeuronPool) : MotorNeuronPool :=
  let total_drive := clampQ (p.central_drive + p.spindle_feedback * (3/10)
    - p.ib_inhibition * (1/2) - p.renshaw_inhibition * (1/5)) 0 1
  { p with neurons := p.neurons.map (MotorNeuronPool.neuronStep total_drive dt) }

/-- `MotorNeuronPool::get_average_firing_rate()`: sum over the neurons
divided by the constant `N_NEURONS = 100`. -/
def MotorNeuronPool.get_average_firing_rate (p : MotorNeuronPool) : ℚ :=
  ((p.neurons.map (fun nr => nr.firing_rate)).sum) / 100

/-- `MotorNeuronPool::set_central_drive`. -/
def MotorNeuronPool.set_central_drive (d : ℚ) (p : MotorNeuronPool) :
    MotorNeuronPool :=
  { p with central_drive := clampQ d 0 1 }

/-- `MotorNeuronPool::set_spindle_feedback`. -/
def MotorNeuronPool.set_spindle_feedback (f : ℚ) (p : MotorNeuronPool) :
    MotorNeuronPool :=
  { p with spindle_feedback := f }

/-- `MotorNeuronPool::update_ib_inhibition`. -/
def MotorNeuronPool.update_ib_inhibition (p : MotorNeuronPool) :
    MotorNeuronPool :=
  { p with ib_inhibition :=
      if 4/5 < p.tendon_force then (p.tendon_force - 4/5) * 2 else 0 }

/-- `MotorNeuronPool::add_renshaw_inhibition`. -/
def MotorNeuronPool.add_renshaw_inhibition (x : ℚ) (p : MotorNeuronPool) :
    MotorNeuronPool :=
  { p with renshaw_inhibition := p.renshaw_inhibition + x }

/-- `SpinalSegment`: an antagonistic flexor/extensor pool pair. -/
structure SpinalSegment where
  flexor : MotorNeuronPool
  extensor : MotorNeuronPool
  deriving DecidableEq

/-- A default-constructed `SpinalSegment` (two constructor pools). -/
def mkSegment (thr : ℕ → ℚ) : SpinalSegment :=
  { flexor := mkPool thr, extensor := mkPool thr }

/-- `SpinalSegment::step(desired_torque, joint_angle, joint_velocity, dt)`. -/
def SpinalSegment.step (desired_torque joint_angle joint_velocity dt : ℚ)
    (seg : SpinalSegment) : SpinalSegment :=
  let spindle := (joint_angle - seg.flexor.setpoint) * 100 + joint_velocity * 5
  let fl := MotorNeuronPool.set_spindle_feedback spindle seg.flexor
  let ex := MotorNeuronPool.set_spindle_feedback (-spindle) seg.extensor
  let fl := MotorNeuronPool.set_central_drive (max desired_torque 0) fl
  let ex := MotorNeuronPool.set_central_drive (max (-desired_torque) 0) ex
  let fl := MotorNeuronPool.update_ib_inhibition fl
  let ex := MotorNeuronPool.update_ib_inhibition ex
  let f_rate := MotorNeuronPool.get_average_firing_rate fl
  let e_rate := MotorNeuronPool.get_average_firing_rate ex
  let fl := MotorNeuronPool.add_renshaw_inhibition (e_rate * (3/10)) fl
  let ex := MotorNeuronPool.add_renshaw_inhibition (f_rate * (3/10)) ex
  { flexor := MotorNeuronPool.step dt fl
    extensor := MotorNeuronPool.step dt ex }

/-- `SpinalSegment::set_emotional_modulation(fear)`: multiply both pools'
spindle feedback by the γ-gain `1 + 0.5·fear`. -/
def SpinalSegment.set_emotional_modulation (fear : ℚ) (seg : SpinalSegment) :
    SpinalSegment :=
  let gamma_gain := 1 + fear * (1/2)
  { flexor := { seg.flexor with
      spindle_feedback := seg.flexor.spindle_feedback * gamma_gain }
    extensor := { seg.extensor with
      spindle_feedback := seg.extensor.spindle_feedback * gamma_gain } }

/-- `SpinalSegment::get_net_activation()`. -/
def SpinalSegment.get_net_activation (seg : SpinalSegment) : ℚ :=
  MotorNeuronPool.get_average_firing_rate seg.flexor
    - MotorNeuronPool.get_average_firing_rate seg.extensor

/-- `SpinalCord`: the segment vector. -/
structure SpinalCord where
  segments : List SpinalSegment
  deriving DecidableEq

/-- `SpinalCord::step(desired_torques, dt)`: early return (no-op) when the
torque vector length differs from the segment count; otherwise step each
segment with joint angle and velocity fixed at `0`. -/
def SpinalCord.step (desired_torques : List ℚ) (dt : ℚ) (cord : SpinalCord) :
    SpinalCord :=
  if desired_torques.length ≠ cord.segments.length then cord
  else
    let segs := List.zipWith (fun seg tau => SpinalSegment.step tau 0 0 dt seg)
      cord.segments desired_torques
    { segments := segs }

/-- `SpinalCord::get_muscle_activations()`. -/
def SpinalCord.get_muscle_activations (cord : SpinalCord) : List ℚ :=
  cord.segments.map SpinalSegment.get_net_activation

/-- The actor calls `spinal_cord.set_emotional_modulation(fear)`, but
`SpinalCord` declares no such member (only `SpinalSegment` does).
Modelled from the spec: §4.9 step 3 configures the cord with the
emotional modulation, i.e. applies the per-segment γ-gain modulation
(§4.5) to every segment. -/
def SpinalCord.set_emotional_modulation (fear : ℚ) (cord : SpinalCord) :
    SpinalCord :=
  { segments := cord.segments.map (SpinalSegment.set_emotional_modulation fear) }

/-- A default-constructed `PhysiologicalActor`'s spinal cord:
`muscle_count = MUSCLE_COUNT = 50`, hence `SpinalCord(50 / 2 = 25)`. -/
def defaultActorCord (thr : ℕ → ℚ) : SpinalCord :=
  { segments := List.replicate 25 (mkSegment thr) }

/-- Torque extraction in `PhysiologicalActor::on_evaluate`: the vector is
cleared, then resized to length 1 holding the `desired_torques` parameter
when that parameter is present. -/
def PhysiologicalActor.buildTorques (params : List (String × ℚ)) : List ℚ :=
  match lookupQ "desired_torques" params with
  | some v => [v]
  | none => []

/-- Steps 3–4 of `PhysiologicalActor::update`, spinal path: emotional
modulation followed by the cord step with the extracted torques. -/
def PhysiologicalActor.spinalFrame (fear : ℚ) (params : List (String × ℚ))
    (dt : ℚ) (cord : SpinalCord) : SpinalCord :=
  SpinalCord.step (PhysiologicalActor.buildTorques params) dt
    (SpinalCord.set_emotional_modulation fear cord)

/-- A run of frames through the actor's spinal path; each frame supplies
the fear value of that frame's blended emotion, the context parameters
and the frame's `dt`. -/
def PhysiologicalActor.spinalRun (frames : List (ℚ × List (String × ℚ) × ℚ))
    (cord : SpinalCord) : SpinalCord :=
  frames.foldl (fun c fr => PhysiologicalActor.spinalFrame fr.1 fr.2.1 fr.2.2 c) cord

/-! ## Huxley fiber (`muscle_huxley.h`)

Parameters from the source: `f1 = 200`, `g1 = 10`, `g2 = 50`,
`v_max = 2500`, `LAMBDA = 10`, `DX = 1`, `k = 2e-6`.  The grid size `G`
is the runtime-configurable static `HuxleyFiber::GRID_SIZE`. -/

/-- `std::vector<float>::resize(G, 0.0f)`: keep the first `min(len, G)`
elements, pad with zeros up to length `G`. -/
def resizeTo (G : ℕ) (l : List ℚ) : List ℚ :=
  l.take G ++ List.replicate (G - l.length) 0

/-- Cross-bridge position of bin `i`: `x = (i - GRID_SIZE/2) * DX` with
C++ integer division for `GRID_SIZE/2` and `DX = 1`. -/
def xPos (G i : ℕ) : ℚ :=
  (i : ℚ) - ((G / 2 : ℕ) : ℚ)

/-- Binding rate `f = f1 · exp(-|x|/LAMBDA) · activation`. -/
def binF (fexp : ℚ → ℚ) (a : ℚ) (G i : ℕ) : ℚ :=
  200 * fexp (-|xPos G i| / 10) * a

/-- Detachment rate `g = g1 + g2 · max(x/LAMBDA, 0) + v_rel · 10`. -/
def binG (vRel : ℚ) (G i : ℕ) : ℚ :=
  10 + 50 * max (xPos G i / 10) 0 + vRel * 10

/-- One bin's explicit-Euler update given the values read for the left
neighbour, the bin itself and the right neighbour:
`clamp(n + dt·(f·(1−n) − g·n − v_rel·(right−left)/(2·DX)), 0, 1)`. -/
def newBinVal (fexp : ℚ → ℚ) (a vRel dt : ℚ) (G i : ℕ)
    (left cur right : ℚ) : ℚ :=
  clampQ (cur + (binF fexp a G i * (1 - cur) - binG vRel G i * cur
    - vRel * (right - left) / 2) * dt) 0 1

/-- The in-place write of loop iteration `i`: the neighbour reads come
from the current (partially updated) array; the index clamps
`max(i-1, 0)` and `min(i+1, G-1)` are `ℕ` truncated subtraction and
`min`. -/
def updateBin (fexp : ℚ → ℚ) (a vRel dt : ℚ) (G i : ℕ) (ns : List ℚ) :
    List ℚ :=
  ns.set i (newBinVal fexp a vRel dt G i (ns.getD (i - 1) 0) (ns.getD i 0)
    (ns.getD (min (i + 1) (G - 1)) 0))

/-- The `for(i = 0; i < GRID_SIZE; ++i)` loop of `HuxleyFiber::step`,
fuelled by the number of remaining iterations. -/
def huxleyGo (fexp : ℚ → ℚ) (a vRel dt : ℚ) (G : ℕ) :
    ℕ → ℕ → List ℚ → List ℚ
  | 0, _, ns => ns
  | fuel + 1, i, ns => huxleyGo fexp a vRel dt G fuel (i + 1)
      (updateBin fexp a vRel dt G i ns)

/-- `HuxleyFiber::step(activation, length, velocity, dt)` restricted to
its effect on the distribution `n`: resize to the current grid size if it
changed, then run the in-place bin loop with `v_rel = velocity / v_max`.
(The `length` argument is unused by the source body.) -/
def HuxleyFiber.stepN (fexp : ℚ → ℚ) (activation velocity dt : ℚ) (G : ℕ)
    (n : List ℚ) : List ℚ :=
  huxleyGo fexp activation (velocity / 2500) dt G G 0 (resizeTo G n)

/-- Force accumulated by `HuxleyFiber::step` (each bin contributes its
post-update value): `Σ nᵢ·k·(xᵢ·1e-9)` plus the Hill correction
`a·v/(b+v)` when `velocity > 0`. -/
def HuxleyFiber.stepForce (fexp : ℚ → ℚ) (activation velocity dt : ℚ)
    (G : ℕ) (n : List ℚ) : ℚ :=
  let n2 := HuxleyFiber.stepN fexp activation velocity dt G n
  let base := ((List.range G).map
    (fun i => n2.getD i 0 * (2/1000000) * (xPos G i * (1/1000000000)))).sum
  if 0 < velocity then base + 25 * velocity / (5/2 + velocity) else base

/-- Modelled from the claim's wording (C6), not from the source: a
Jacobi-style step in which every bin is updated simultaneously and the
convection term reads both neighbours from the pre-update distribution.
It is compared against the source-derived `HuxleyFiber.stepN`. -/
def huxleyStepJacobi (fexp : ℚ → ℚ) (activation velocity dt : ℚ) (G : ℕ)
    (n : List ℚ) : List ℚ :=
  let n0 := resizeTo G n
  let vRel := velocity / 2500
  (List.range G).map (fun i =>
    newBinVal fexp activation vRel dt G i (n0.getD (i - 1) 0) (n0.getD i 0)
      (n0.getD (min (i + 1) (G - 1)) 0))

/-! ## Metabolism (`metabolism.h`) -/

/-- `aino_pro::biology::smoothstep`. -/
def smoothstepQ (x edge0 edge1 : ℚ) : ℚ :=
  let t := clampQ ((x - edge0) / (edge1 - edge0)) 0 1
  t * t * (3 - 2 * t)

/-- `MetabolicSystem` state (concentrations and the exercise timer). -/
structure MetabolicState where
  ATP : ℚ := 1
  PCr : ℚ := 1
  glycogen : ℚ := 1
  lactate : ℚ := 0
  pyruvate : ℚ := 0
  time_since_exercise : ℚ := 0
  deriving DecidableEq

/-- `MetabolicSystem::update(muscle_activation, dt)`: flux computation,
explicit Euler, then the boundary clamps.  `fexp` abstracts the
`std::exp` inside the pH-inhibition sigmoid. -/
def MetabolicSystem.update (fexp : ℚ → ℚ) (muscle_activation dt : ℚ)
    (st : MetabolicState) : MetabolicState :=
  let t1 := st.time_since_exercise + dt
  let J_ATP_hydrolysis := (1/20) * muscle_activation
  let J_PCr_synthesis := (5/2) * st.PCr * (1 - st.ATP)
  let J_PCr_recovery := (5/2) * (1/10) * (1 - st.PCr)
  let H_concentration := st.lactate * (1/10)
  let glycolysis_inhibition := 1 / (1 + fexp ((H_concentration - 1/20) / (1/100)))
  let J_glycolysis := (3/100) * st.glycogen * glycolysis_inhibition
  let oxidative_delay := smoothstepQ t1 0 30
  let J_oxidative := (1/50) * oxidative_delay * st.pyruvate
  let J_lactate_production := J_glycolysis * (1/2)
  let J_lactate_clearance := (1/100) * st.lactate / (1 + st.lactate)
  let J_pyruvate_to_lactate := J_glycolysis * (1/2) - J_oxidative * (7/10)
  let J_pyruvate_to_acetyl := J_oxidative * (7/10)
  { ATP := clampQ (st.ATP + dt * (-J_ATP_hydrolysis + J_PCr_synthesis)) 0 1
    PCr := clampQ (st.PCr + dt * (-J_PCr_synthesis + J_PCr_recovery)) (3/10) 1
    glycogen := clampQ (st.glycogen + dt * (-J_glycolysis + 1/200)) 0 1
    lactate := clampQ (st.lactate + dt * (J_lactate_production - J_lactate_clearance)) 0 1
    pyruvate := clampQ (st.pyruvate + dt * (J_pyruvate_to_lactate - J_pyruvate_to_acetyl)) 0 (1/5)
    time_since_exercise := t1 }

/-! ## Viscoelastic tendon (`tendon_viscoelastic.h`) -/

/-- One Prony-series term. -/
structure PronyTerm where
  modulus : ℚ
  tau : ℚ
  strain_memory : ℚ := 0
  deriving DecidableEq

/-- `TendonNonlinear` state; the defaults are the source's initialisers. -/
structure TendonState where
  terms : List PronyTerm :=
    [{ modulus := 500000000, tau := 1/10 }, { modulus := 300000000, tau := 1 },
     { modulus := 200000000, tau := 10 }, { modulus := 100000000, tau := 100 },
     { modulus := 50000000, tau := 1000 }]
  E_linear : ℚ := 1200000000
  E_nonlinear : ℚ := 80000000000
  epsilon_max : ℚ := 2/25
  viscosity : ℚ := 1500
  last_strain : ℚ := 0
  hysteresis_loss : ℚ := 0
  dt_accum : ℚ := 0
  deriving DecidableEq

/-- `TendonNonlinear::set_linear_mode()`: zero every Prony modulus, the
viscosity and the non-linear elastic modulus `E_nonlinear`. -/
def TendonNonlinear.set_linear_mode (st : TendonState) : TendonState :=
  { st with
    terms := st.terms.map (fun t => { t with modulus := 0 })
    viscosity := 0
    E_nonlinear := 0 }

/-- `TendonNonlinear::compute_stress(strain, strain_rate, dt)`: returns
the stress together with the updated state.  The final clamp bounds the
total stress by `E_nonlinear · epsilon_max²`. -/
def TendonNonlinear.compute_stress (fexp : ℚ → ℚ)
    (strain strain_rate dt : ℚ) (st : TendonState) : ℚ × TendonState :=
  let dt_accum := st.dt_accum + dt
  let epsilon := clampQ strain 0 st.epsilon_max
  let sigma_elastic := st.E_linear * epsilon + st.E_nonlinear * epsilon * epsilon
  let sigma_viscous := st.viscosity * strain_rate * (1 + epsilon * 5)
  let terms1 := st.terms.map (fun t =>
    { t with strain_memory := t.strain_memory * fexp (-dt / t.tau) + strain * dt })
  let sigma_history := (terms1.map (fun t =>
    t.modulus * t.strain_memory / (t.tau + 1/1000000))).sum
  let sigma_total := sigma_elastic + sigma_viscous + sigma_history
  let hyst := if strain_rate * (strain - st.last_strain) < 0
    then st.hysteresis_loss + |sigma_viscous * strain_rate * dt|
    else st.hysteresis_loss
  let max_stress := st.E_nonlinear * st.epsilon_max * st.epsilon_max
  let st2 : TendonState :=
    { st with
      terms := terms1
      last_strain := strain
      hysteresis_loss := hyst
      dt_accum := dt_accum }
  (clampQ sigma_total 0 max_stress, st2)

/-! ## Engine facade (`aino_pro.h`) -/

/-- The four accuracy tiers. -/
inductive Accuracy where
  | Realtime
  | Standard
  | High
  | Extreme
  deriving DecidableEq

/-- Grid size chosen per tier in `Engine::initialize`. -/
def tierGrid : Accuracy → ℕ
  | Accuracy.Realtime => 10
  | Accuracy.Standard => 100
  | Accuracy.High => 200
  | Accuracy.Extreme => 1000

/-- The engine-global state the claims touch: the configured accuracy,
the process-wide static `HuxleyFiber::GRID_SIZE`, and the one-time init
latch `s_initialized`.  (Feature flags, budget and human parameters play
no role in the modelled behaviour.) -/
structure EngineState where
  accuracy : Accuracy
  gridSize : ℕ
  latched : Bool
  deriving DecidableEq

/-- Engine state at program start: `t_config.accuracy = Standard`,
`HuxleyFiber::GRID_SIZE = 100`, latch unset. -/
def engineStart : EngineState :=
  { accuracy := Accuracy.Standard, gridSize := 100, latched := false }

/-- `Engine::initialize(cfg)`: no-op when already latched; otherwise
store the config and broadcast the tier's grid size via
`Muscle::set_global_grid_size`. -/
def Engine.initCfg (acc : Accuracy) (st : EngineState) : EngineState :=
  if st.latched then st
  else { accuracy := acc, gridSize := tierGrid acc, latched := true }

/-- `MuscleSystem::reconfigure_all()`: the source body is empty (its
comment says a real implementation would need an object registry), so the
call is the identity on the engine state. -/
def MuscleSystem.reconfigure_all (st : EngineState) : EngineState := st

/-- `Engine::set_accuracy(acc)`: update `t_config.accuracy`, then call
`MuscleSystem::reconfigure_all` — which does nothing; in particular the
static `HuxleyFiber::GRID_SIZE` is not touched. -/
def Engine.set_accuracy (acc : Accuracy) (st : EngineState) : EngineState :=
  MuscleSystem.reconfigure_all { st with accuracy := acc }

/-! ## Concrete states used in counterexamples and witnesses -/

/-- A pool whose single listed neuron is exactly neuron 0 of a freshly
constructed `MotorNeuronPool` (its recruitment threshold is
`pow(0/100, 1.5) = 0`), after `set_central_drive(1.0)`.  The per-neuron
update of `step` is independent of the other 99 neurons (whose
thresholds are irrational), so this suffices to exercise the source
behaviour of neuron 0. -/
def poolA : MotorNeuronPool :=
  { neurons := [mkNeuron 0], central_drive := 1 }

/-- A neuron sitting in its after-hyperpolarization (refractory) phase. -/
def neuronR : Neuron :=
  { firing_rate := 0, recruitment_threshold := 0, fatigue := 0
    after_hyperpolarization := 1/10 }

/-- A pool holding the refractory neuron `neuronR`. -/
def poolB : MotorNeuronPool :=
  { neurons := [neuronR] }

/-- A one-segment spinal cord (`SpinalCord(1)`), thresholds abstracted. -/
def cordW : SpinalCord :=
  { segments := [mkSegment (fun _ => 0)] }

/-! ## Supporting lemmas -/

theorem clampQ_le {v lo hi : ℚ} (h : lo ≤ hi) : clampQ v lo hi ≤ hi := by
  unfold clampQ; split_ifs <;> linarith

theorem le_clampQ {v lo hi : ℚ} (h : lo ≤ hi) : lo ≤ clampQ v lo hi := by
  unfold clampQ; split_ifs <;> linarith

theorem clampQ_zero_zero (v : ℚ) : clampQ v 0 0 = 0 := by
  unfold clampQ; split_ifs with h1 h2 <;> linarith

theorem getD_set_self : ∀ (l : List ℚ) (i : ℕ) (v : ℚ), i < l.length →
    (l.set i v).getD i 0 = v
  | _ :: _, 0, _, _ => rfl
  | _ :: l, i + 1, v, h => getD_set_self l i v (Nat.lt_of_succ_lt_succ h)

theorem getD_set_ne : ∀ (l : List ℚ) (i j : ℕ) (v : ℚ), i ≠ j →
    (l.set i v).getD j 0 = l.getD j 0
  | [], _, _, _, _ => rfl
  | _ :: _, 0, 0, _, h => absurd rfl h
  | _ :: _, 0, _ + 1, _, _ => rfl
  | _ :: _, _ + 1, 0, _, _ => rfl
  | _ :: l, i + 1, j + 1, v, h =>
      getD_set_ne l i j v (fun e => h (congrArg Nat.succ e))

theorem getD_map_lt {α β : Type} (f : α → β) (dA : α) (dB : β) :
    ∀ (l : List α) (i : ℕ), i < l.length → (l.map f).getD i dB = f (l.getD i dA)
  | [], i, h => absurd h (Nat.not_lt_zero i)
  | _ :: _, 0, _ => rfl
  | _ :: l, i + 1, h => getD_map_lt f dA dB l i (Nat.lt_of_succ_lt_succ h)

theorem resizeTo_length (G : ℕ) (l : List ℚ) : (resizeTo G l).length = G := by
  simp [resizeTo]
  omega

theorem length_updateBin (fexp : ℚ → ℚ) (a vRel dt : ℚ) (G i : ℕ)
    (ns : List ℚ) : (updateBin fexp a vRel dt G i ns).length = ns.length := by
  simp [updateBin]

theorem length_huxleyGo (fexp : ℚ → ℚ) (a vRel dt : ℚ) (G : ℕ) :
    ∀ (fuel i : ℕ) (ns : List ℚ),
      (huxleyGo fexp a vRel dt G fuel i ns).length = ns.length
  | 0, _, _ => rfl
  | fuel + 1, i, ns => by
      rw [huxleyGo, length_huxleyGo fexp a vRel dt G fuel,
        length_updateBin]

theorem stepN_length (fexp : ℚ → ℚ) (a vel dt : ℚ) (G : ℕ) (n : List ℚ) :
    (HuxleyFiber.stepN fexp a vel dt G n).length = G := by
  rw [HuxleyFiber.stepN, length_huxleyGo, resizeTo_length]

theorem huxleyGo_getD_lt (fexp : ℚ → ℚ) (a vRel dt : ℚ) (G : ℕ) :
    ∀ (fuel i : ℕ) (ns : List ℚ) (j : ℕ), j < i →
      (huxleyGo fexp a vRel dt G fuel i ns).getD j 0 = ns.getD j 0
  | 0, _, _, _, _ => rfl
  | fuel + 1, i, ns, j, hj => by
      rw [huxleyGo,
        huxleyGo_getD_lt fexp a vRel dt G fuel (i + 1) _ j (Nat.lt_succ_of_lt hj),
        updateBin, getD_set_ne _ _ _ _ (Nat.ne_of_gt hj)]

theorem huxleyGo_getD_ge (fexp : ℚ → ℚ) (a vRel dt : ℚ) (G : ℕ) :
    ∀ (fuel i : ℕ) (ns : List ℚ) (j : ℕ), i + fuel ≤ j →
      (huxleyGo fexp a vRel dt G fuel i ns).getD j 0 = ns.getD j 0
  | 0, _, _, _, _ => rfl
  | fuel + 1, i, ns, j, hj => by
      rw [huxleyGo,
        huxleyGo_getD_ge fexp a vRel dt G fuel (i + 1) _ j (by omega),
        updateBin, getD_set_ne _ _ _ _ (by omega)]

theorem huxleyGo_add (fexp : ℚ → ℚ) (a vRel dt : ℚ) (G : ℕ) :
    ∀ (k fuel i : ℕ) (ns : List ℚ),
      huxleyGo fexp a vRel dt G (k + fuel) i ns =
        huxleyGo fexp a vRel dt G fuel (i + k) (huxleyGo fexp a vRel dt G k i ns)
  | 0, fuel, i, ns => by rw [Nat.zero_add]; rfl
  | k + 1, fuel, i, ns => by
      have h1 : k + 1 + fuel = (k + fuel) + 1 := by omega
      rw [h1, huxleyGo, huxleyGo_add fexp a vRel dt G k fuel (i + 1), huxleyGo]
      have h2 : i + 1 + k = i + (k + 1) := by omega
      rw [h2]

/-- Characterisation of the in-place bin loop of `HuxleyFiber::step`:
bin `i` of the result is the explicit-Euler clamp where the right
neighbour (`min(i+1, G-1)`) is read from the pre-update distribution
while the left neighbour (`max(i-1, 0)`) is read from the partially
updated array — the already-written result bin `i-1` when `i ≥ 1`, the
pre-update bin `0` when `i = 0`. -/
theorem huxley_char (fexp : ℚ → ℚ) (a vel dt : ℚ) (G : ℕ) (n : List ℚ)
    (i : ℕ) (hi : i < G) :
    (HuxleyFiber.stepN fexp a vel dt G n).getD i 0 =
      newBinVal fexp a (vel / 2500) dt G i
        (if i = 0 then (resizeTo G n).getD 0 0
          else (HuxleyFiber.stepN fexp a vel dt G n).getD (i - 1) 0)
        ((resizeTo G n).getD i 0)
        ((resizeTo G n).getD (min (i + 1) (G - 1)) 0) := by
  have hsplit : G = i + ((G - i - 1) + 1) := by omega
  set n0 := resizeTo G n with hn0
  have hlen : n0.length = G := resizeTo_length G n
  have hM : HuxleyFiber.stepN fexp a vel dt G n =
      huxleyGo fexp a (vel / 2500) dt G ((G - i - 1) + 1) i
        (huxleyGo fexp a (vel / 2500) dt G i 0 n0) := by
    rw [HuxleyFiber.stepN, ← hn0]
    calc huxleyGo fexp a (vel / 2500) dt G G 0 n0
        = huxleyGo fexp a (vel / 2500) dt G (i + ((G - i - 1) + 1)) 0 n0 := by
          rw [← hsplit]
      _ = huxleyGo fexp a (vel / 2500) dt G ((G - i - 1) + 1) (0 + i)
            (huxleyGo fexp a (vel / 2500) dt G i 0 n0) := by
          rw [huxleyGo_add]
      _ = _ := by rw [Nat.zero_add]
  set M := huxleyGo fexp a (vel / 2500) dt G i 0 n0 with hMdef
  have hMlen : M.length = G := by rw [hMdef, length_huxleyGo, hlen]
  have hgetD_i : (HuxleyFiber.stepN fexp a vel dt G n).getD i 0 =
      (updateBin fexp a (vel / 2500) dt G i M).getD i 0 := by
    rw [hM, huxleyGo, huxleyGo_getD_lt _ _ _ _ _ _ _ _ i (Nat.lt_succ_self i)]
  have hMi : M.getD i 0 = n0.getD i 0 := by
    rw [hMdef, huxleyGo_getD_ge _ _ _ _ _ i 0 n0 i (by omega)]
  have hMr : M.getD (min (i + 1) (G - 1)) 0 = n0.getD (min (i + 1) (G - 1)) 0 := by
    rw [hMdef, huxleyGo_getD_ge _ _ _ _ _ i 0 n0 _ (by omega)]
  have hML : M.getD (i - 1) 0 =
      if i = 0 then n0.getD 0 0
      else (HuxleyFiber.stepN fexp a vel dt G n).getD (i - 1) 0 := by
    by_cases h0 : i = 0
    · subst h0
      simp [hMdef, huxleyGo]
    · rw [if_neg h0, hM,
        huxleyGo_getD_lt fexp a (vel / 2500) dt G ((G - i - 1) + 1) i M
          (i - 1) (by omega)]
  rw [hgetD_i, updateBin, getD_set_self _ _ _ (by omega), hMi, hMr, hML]

theorem avg_mkPool (thr : ℕ → ℚ) :
    MotorNeuronPool.get_average_firing_rate (mkPool thr) = 0 := by
  rw [MotorNeuronPool.get_average_firing_rate, List.sum_eq_zero]
  · norm_num
  · intro x hx
    simp [mkPool, mkNeuron] at hx
    obtain ⟨i, _, rfl⟩ := hx
    rfl

theorem mod_mkSegment (thr : ℕ → ℚ) (fear : ℚ) :
    SpinalSegment.set_emotional_modulation fear (mkSegment thr) = mkSegment thr := by
  simp [SpinalSegment.set_emotional_modulation, mkSegment, mkPool]

theorem mod_defaultCord (thr : ℕ → ℚ) (fear : ℚ) :
    SpinalCord.set_emotional_modulation fear (defaultActorCord thr) =
      defaultActorCord thr := by
  simp [SpinalCord.set_emotional_modulation, defaultActorCord,
    List.map_replicate, mod_mkSegment]

theorem buildTorques_length (params : List (String × ℚ)) :
    (PhysiologicalActor.buildTorques params).length ≤ 1 := by
  rw [PhysiologicalActor.buildTorques]
  cases lookupQ "desired_torques" params <;> simp

theorem spinalFrame_default (thr : ℕ → ℚ) (fear : ℚ)
    (params : List (String × ℚ)) (dt : ℚ) :
    PhysiologicalActor.spinalFrame fear params dt (defaultActorCord thr) =
      defaultActorCord thr := by
  have hlen : (defaultActorCord thr).segments.length = 25 := by
    simp [defaultActorCord]
  have ht := buildTorques_length params
  rw [PhysiologicalActor.spinalFrame, mod_defaultCord, SpinalCord.step,
    if_pos (by omega)]

theorem spinalRun_default (thr : ℕ → ℚ) :
    ∀ frames : List (ℚ × List (String × ℚ) × ℚ),
      PhysiologicalActor.spinalRun frames (defaultActorCord thr) =
        defaultActorCord thr
  | [] => rfl
  | f :: fs => by
      rw [PhysiologicalActor.spinalRun, List.foldl_cons, spinalFrame_default]
      exact spinalRun_default thr fs

theorem activations_default (thr : ℕ → ℚ) :
    SpinalCord.get_muscle_activations (defaultActorCord thr) =
      List.replicate 25 0 := by
  simp [SpinalCord.get_muscle_activations, defaultActorCord,
    List.map_replicate, SpinalSegment.get_net_activation, mkSegment,
    avg_mkPool]

/-! ## Claim theorems -/

/-- C1, counterexample: the claim "after every `MotorNeuronPool::step`,
AHP > 0 implies firing_rate = 0" is false at a concrete, reachable
input.  In the pool `poolA` (fresh neuron 0, `central_drive = 1`) a
`step(0.1)` makes neuron 0 fire (`firing_rate = 50`) and simultaneously
sets its after-hyperpolarization timer to `0.2 > 0`: the firing step
itself leaves both the positive timer and a non-zero rate. -/
theorem C1_counterexample :
    0 < ((MotorNeuronPool.step (1/10) poolA).neurons.getD 0
      (mkNeuron 0)).after_hyperpolarization ∧
    ((MotorNeuronPool.step (1/10) poolA).neurons.getD 0
      (mkNeuron 0)).firing_rate ≠ 0 := by
  norm_num [MotorNeuronPool.step, MotorNeuronPool.neuronStep, poolA, clampQ,
    mkNeuron, List.getD]

/-- C1, amended: for every pool, every `dt` and every neuron `i`, if the
neuron's after-hyperpolarization timer is strictly positive *before* the
call to `MotorNeuronPool::step(dt)` (i.e. the neuron is already
refractory when the step begins), then its firing_rate equals 0 after
the call. -/
theorem C1_amended (p : MotorNeuronPool) (dt : ℚ) (i : ℕ)
    (hi : i < p.neurons.length)
    (hahp : 0 < (p.neurons.getD i (mkNeuron 0)).after_hyperpolarization) :
    ((MotorNeuronPool.step dt p).neurons.getD i (mkNeuron 0)).firing_rate
      = 0 := by
  rw [MotorNeuronPool.step]
  rw [getD_map_lt _ (mkNeuron 0) (mkNeuron 0) p.neurons i hi]
  rw [MotorNeuronPool.neuronStep, if_neg]
  intro h
  exact absurd hahp (not_lt.2 h.2)

/-- C1, witness for the amended theorem at the refractory pool `poolB`. -/
theorem C1_witness :
    0 < poolB.neurons.length ∧
    0 < (poolB.neurons.getD 0 (mkNeuron 0)).after_hyperpolarization ∧
    ((MotorNeuronPool.step (1/100) poolB).neurons.getD 0
      (mkNeuron 0)).firing_rate = 0 :=
  ⟨by norm_num [poolB], by norm_num [poolB, neuronR, List.getD],
    C1_amended poolB (1/100) 0 (by norm_num [poolB])
      (by norm_num [poolB, neuronR, List.getD])⟩

/-- C2, counterexample: in the claimed scenario (one frame, `dt = 0.016`,
`threat_distance = 0.25`, `threat_urgency = 0.9`, all emotion state
zero) the activation handed to the trapezius in
`apply_emotion_to_muscles` is `0.7 · fear = 0.7 · 1.2 = 0.84`, not the
claimed `0.56`: the fear channel reaching step 4 is the unclamped `1.2`,
never scaled down to `0.8`.  (`fexp` is instantiated arbitrarily; the
projected outputs do not depend on it.) -/
theorem C2_counterexample :
    (PhysiologicalActor.emotionFrame (fun _ => 1) (2/125)
      [("threat_distance", 1/4), ("threat_urgency", 9/10)] {}).trapActivation
      = 21/25 ∧
    (PhysiologicalActor.emotionFrame (fun _ => 1) (2/125)
      [("threat_distance", 1/4), ("threat_urgency", 9/10)] {}).trapActivation
      ≠ 14/25 := by
  simp only [PhysiologicalActor.emotionFrame, PhysiologicalActor.buildStimuli,
    PhysiologicalActor.processStimuli, PhysiologicalActor.blend_emotions_max,
    CognitiveAppraiser.appraise, CognitiveAppraiser.primary_appraisal,
    CognitiveAppraiser.secondary_appraisal, AnimationContext.param,
    MoodDynamics.update, MoodDynamics.get_state, lookupQ,
    String.reduceEq, reduceIte, Option.getD_some, List.foldl, List.map]
  norm_num [clampQ]

/-- C2, amended: for one evaluated frame with `dt = 0.016`,
`threat_distance = 0.25` and `threat_urgency = 0.9` (all emotion state
initially zero), the generated stimulus has intensity `0.8`, the fear
channel of the actor's current emotion is at least `0.8` (it is `1.2`),
and the trapezius receives activation exactly `0.84 = 0.7 · 1.2` in the
emotion-to-muscle override step.  Universally quantified over the
exponential model `fexp`, which only enters the mood decay. -/
theorem C2_amended (fexp : ℚ → ℚ) :
    ((PhysiologicalActor.emotionFrame fexp (2/125)
      [("threat_distance", 1/4), ("threat_urgency", 9/10)] {}).stimuli.map
        (fun s => s.intensity)) = [4/5] ∧
    4/5 ≤ (PhysiologicalActor.emotionFrame fexp (2/125)
      [("threat_distance", 1/4), ("threat_urgency", 9/10)] {}).emotion.primary.fear ∧
    (PhysiologicalActor.emotionFrame fexp (2/125)
      [("threat_distance", 1/4), ("threat_urgency", 9/10)] {}).trapActivation
      = 21/25 := by
  simp only [PhysiologicalActor.emotionFrame, PhysiologicalActor.buildStimuli,
    PhysiologicalActor.processStimuli, PhysiologicalActor.blend_emotions_max,
    CognitiveAppraiser.appraise, CognitiveAppraiser.primary_appraisal,
    CognitiveAppraiser.secondary_appraisal, AnimationContext.param,
    MoodDynamics.update, MoodDynamics.get_state, lookupQ,
    String.reduceEq, reduceIte, Option.getD_some, List.foldl, List.map]
  norm_num [clampQ]

/-- C3, code evaluated at the failing input: `appraise` on a threat
stimulus with intensity `0.8`, familiarity `0`, predictability `1`,
urgency `1` against the zero context returns
`fear = 0.8 · (2 − 0) = 1.6 > 1` — the fear channel escapes `[0,1]`,
contradicting the source's own declaration of the primary channels as
0–1 intensities. -/
theorem C3_eval :
    (CognitiveAppraiser.appraise
      { category := "threat", intensity := 4/5, urgency := 1,
        familiarity := 0, predictability := 1 } {}).emotion.primary.fear
      = 8/5 ∧
    ¬ (CognitiveAppraiser.appraise
      { category := "threat", intensity := 4/5, urgency := 1,
        familiarity := 0, predictability := 1 } {}).emotion.primary.fear
      ≤ 1 := by
  simp only [CognitiveAppraiser.appraise, CognitiveAppraiser.primary_appraisal,
    CognitiveAppraiser.secondary_appraisal, AnimationContext.param,
    lookupQ, String.reduceEq, reduceIte, Option.getD_none]
  norm_num

/-- C4, code evaluated at the failing input: the engine is initialised at
Standard (grid 100); `Engine::set_accuracy(Realtime)` only stores the
accuracy and calls the empty `MuscleSystem::reconfigure_all`, so
`HuxleyFiber::GRID_SIZE` stays 100 and the next `HuxleyFiber::step`
leaves the grid at length 100, not the Realtime tier's 10. -/
theorem C4_eval :
    tierGrid Accuracy.Realtime = 10 ∧
    (Engine.set_accuracy Accuracy.Realtime
      (Engine.initCfg Accuracy.Standard engineStart)).gridSize = 100 ∧
    (HuxleyFiber.stepN (fun _ => 1) 0 0 0
      (Engine.set_accuracy Accuracy.Realtime
        (Engine.initCfg Accuracy.Standard engineStart)).gridSize []).length
      = 100 := by
  have hg : (Engine.set_accuracy Accuracy.Realtime
      (Engine.initCfg Accuracy.Standard engineStart)).gridSize = 100 := by
    simp [Engine.set_accuracy, MuscleSystem.reconfigure_all, Engine.initCfg,
      engineStart, tierGrid]
  refine ⟨rfl, hg, ?_⟩
  rw [stepN_length, hg]

/-- C5, code evaluated at the failing input: merging a zero running
profile with an appraisal profile whose `surprise` is `0.45` leaves the
merged `surprise` at `0`, although the component-wise maximum is `0.45`:
`blend_emotions_max` copies only joy, sadness, anger and fear. -/
theorem C5_eval :
    (PhysiologicalActor.blend_emotions_max {}
      { primary := { surprise := 9/20, fear := 6/5 } }).primary.surprise
      = 0 ∧
    max (({} : EmotionProfile)).primary.surprise
      (({ primary := { surprise := 9/20, fear := 6/5 } } :
        EmotionProfile)).primary.surprise = 9/20 := by
  norm_num [PhysiologicalActor.blend_emotions_max]

/-- C6, counterexample: the claim that the convection term is computed
from the pre-update distribution (a simultaneous, Jacobi-style update)
is false.  At grid size 3, `n = [1,0,0]`, activation 0 (so the
exponential-dependent binding term vanishes and `fexp` is irrelevant),
`velocity = v_max` and `dt = 0.01`, the source loop — which updates the
array in place, so bin 1 reads the already-updated bin 0 — produces a
different distribution from the Jacobi-style step modelled directly from
the claim's words (`huxleyStepJacobi`): bin 1 becomes `161/40000`
instead of `1/200`. -/
theorem C6_counterexample :
    HuxleyFiber.stepN (fun _ => 1) 0 2500 (1/100) 3 [1, 0, 0] ≠
      huxleyStepJacobi (fun _ => 1) 0 2500 (1/100) 3 [1, 0, 0] := by
  have h1 : HuxleyFiber.stepN (fun _ => 1) 0 2500 (1/100) 3 [1, 0, 0] =
      [161/200, 161/40000, 161/8000000] := by
    norm_num [HuxleyFiber.stepN, huxleyGo, updateBin, newBinVal, binF, binG,
      xPos, resizeTo, clampQ]
  have h2 : huxleyStepJacobi (fun _ => 1) 0 2500 (1/100) 3 [1, 0, 0] =
      [161/200, 1/200, 0] := by
    norm_num [huxleyStepJacobi, newBinVal, binF, binG, xPos, resizeTo, clampQ,
      List.range_succ]
  rw [h1, h2]
  norm_num

/-- C6, amended: `HuxleyFiber::step` updates the bins sequentially in
increasing index order with
`n_i ← clamp(n_i + dt·(f(x_i)·(1−n_i) − g(x_i,v_rel)·n_i − c_i), 0, 1)`
and `c_i = v_rel·(n_{i+1} − n_{i−1})/(2·dx)` with neighbour indices
clamped to `[0, G−1]`, but in place rather than simultaneously: the
right neighbour `min(i+1, G−1)` is read from the pre-update
distribution, while the left neighbour `max(i−1, 0)` is read from the
partially updated array — the already-updated result bin `i−1` when
`i ≥ 1`, the pre-update bin 0 when `i = 0`. -/
theorem C6_amended (fexp : ℚ → ℚ) (a vel dt : ℚ) (G : ℕ) (n : List ℚ)
    (i : ℕ) (hi : i < G) :
    (HuxleyFiber.stepN fexp a vel dt G n).getD i 0 =
      newBinVal fexp a (vel / 2500) dt G i
        (if i = 0 then (resizeTo G n).getD 0 0
          else (HuxleyFiber.stepN fexp a vel dt G n).getD (i - 1) 0)
        ((resizeTo G n).getD i 0)
        ((resizeTo G n).getD (min (i + 1) (G - 1)) 0) :=
  huxley_char fexp a vel dt G n i hi

/-- C6, witness for the amended theorem at bin 1 of a 3-bin grid. -/
theorem C6_witness :
    (1 : ℕ) < 3 ∧
    (HuxleyFiber.stepN (fun _ => 1) 0 2500 (1/100) 3 [1, 0, 0]).getD 1 0 =
      newBinVal (fun _ => 1) 0 (2500 / 2500) (1/100) 3 1
        (if (1 : ℕ) = 0 then (resizeTo 3 [1, 0, 0]).getD 0 0
          else (HuxleyFiber.stepN (fun _ => 1) 0 2500 (1/100) 3
            [1, 0, 0]).getD (1 - 1) 0)
        ((resizeTo 3 [1, 0, 0]).getD 1 0)
        ((resizeTo 3 [1, 0, 0]).getD (min (1 + 1) (3 - 1)) 0) :=
  ⟨by norm_num,
    C6_amended (fun _ => 1) 0 2500 (1/100) 3 [1, 0, 0] 1 (by norm_num)⟩

/-- C7: after every `HuxleyFiber::step` every bin value lies in `[0,1]`,
and after every `MetabolicSystem::update` the concentrations satisfy
`ATP ∈ [0,1]`, `PCr ∈ [0.3,1]`, `glycogen ∈ [0,1]`, `lactate ∈ [0,1]`
and `pyruvate ∈ [0,0.2]`, for all inputs (any starting state, activation
and `dt`, and any exponential model `fexp`): each owning step ends in
the corresponding clamp. -/
theorem C7_invariants :
    (∀ (fexp : ℚ → ℚ) (a vel dt : ℚ) (G : ℕ) (n : List ℚ) (i : ℕ), i < G →
      0 ≤ (HuxleyFiber.stepN fexp a vel dt G n).getD i 0 ∧
        (HuxleyFiber.stepN fexp a vel dt G n).getD i 0 ≤ 1) ∧
    (∀ (fexp : ℚ → ℚ) (act dt : ℚ) (st : MetabolicState),
      0 ≤ (MetabolicSystem.update fexp act dt st).ATP ∧
      (MetabolicSystem.update fexp act dt st).ATP ≤ 1 ∧
      3/10 ≤ (MetabolicSystem.update fexp act dt st).PCr ∧
      (MetabolicSystem.update fexp act dt st).PCr ≤ 1 ∧
      0 ≤ (MetabolicSystem.update fexp act dt st).glycogen ∧
      (MetabolicSystem.update fexp act dt st).glycogen ≤ 1 ∧
      0 ≤ (MetabolicSystem.update fexp act dt st).lactate ∧
      (MetabolicSystem.update fexp act dt st).lactate ≤ 1 ∧
      0 ≤ (MetabolicSystem.update fexp act dt st).pyruvate ∧
      (MetabolicSystem.update fexp act dt st).pyruvate ≤ 1/5) := by
  constructor
  · intro fexp a vel dt G n i hi
    rw [huxley_char fexp a vel dt G n i hi]
    simp only [newBinVal]
    exact ⟨le_clampQ (by norm_num), clampQ_le (by norm_num)⟩
  · intro fexp act dt st
    simp only [MetabolicSystem.update]
    exact ⟨le_clampQ (by norm_num), clampQ_le (by norm_num),
      le_clampQ (by norm_num), clampQ_le (by norm_num),
      le_clampQ (by norm_num), clampQ_le (by norm_num),
      le_clampQ (by norm_num), clampQ_le (by norm_num),
      le_clampQ (by norm_num), clampQ_le (by norm_num)⟩

/-- C7, witness: the Huxley part of the invariant instantiated at bin 1
of a 3-bin step. -/
theorem C7_witness :
    0 ≤ (HuxleyFiber.stepN (fun _ => 1) 0 2500 (1/100) 3 [1, 0, 0]).getD 1 0 ∧
    (HuxleyFiber.stepN (fun _ => 1) 0 2500 (1/100) 3 [1, 0, 0]).getD 1 0 ≤ 1 :=
  C7_invariants.1 (fun _ => 1) 0 2500 (1/100) 3 [1, 0, 0] 1 (by norm_num)

/-- C8: when the desired-torques vector length differs from the segment
count, `SpinalCord::step` returns at once and the whole cord — every
segment, both pools of each, all neuron states, drives and inhibition
terms — is exactly what it was before the call. -/
theorem C8_noop (torques : List ℚ) (dt : ℚ) (cord : SpinalCord)
    (h : torques.length ≠ cord.segments.length) :
    SpinalCord.step torques dt cord = cord := by
  rw [SpinalCord.step, if_pos h]

/-- C8, witness: a two-torque vector against a one-segment cord. -/
theorem C8_witness :
    ([1, 1] : List ℚ).length ≠ cordW.segments.length ∧
    SpinalCord.step [1, 1] (1/60) cordW = cordW :=
  ⟨by simp [cordW], C8_noop [1, 1] (1/60) cordW (by simp [cordW])⟩

/-- C9: the default-constructed actor has 50 muscles, hence a 25-segment
spinal cord, while `on_evaluate` builds a desired-torques vector of
length at most 1; the cord step therefore always takes its
length-mismatch early return (the γ-gain modulation multiplies only the
zero spindle feedback), and `get_muscle_activations` returns all zeros
after every frame.  Quantified over every threshold assignment `thr`
(covering the constructor's `pow(i/100, 1.5)` values) and every frame
sequence. -/
theorem C9_zero_activations :
    (∀ params : List (String × ℚ),
      (PhysiologicalActor.buildTorques params).length ≤ 1) ∧
    (∀ (thr : ℕ → ℚ) (frames : List (ℚ × List (String × ℚ) × ℚ)),
      SpinalCord.get_muscle_activations
        (PhysiologicalActor.spinalRun frames (defaultActorCord thr)) =
        List.replicate 25 0) :=
  ⟨buildTorques_length, fun thr frames => by
    rw [spinalRun_default, activations_default]⟩

/-- C10: after `TendonNonlinear::set_linear_mode`, `compute_stress`
returns 0 for every input: zeroing `E_nonlinear` makes the saturation
ceiling `E_nonlinear · epsilon_max²` equal to 0, so the final clamp to
`[0, 0]` forces the result to 0 regardless of the remaining linear
elastic modulus (and of the Prony memories and viscosity, also zeroed). -/
theorem C10_linear_mode_zero (fexp : ℚ → ℚ) (st : TendonState)
    (strain strain_rate dt : ℚ) :
    (TendonNonlinear.compute_stress fexp strain strain_rate dt
      (TendonNonlinear.set_linear_mode st)).1 = 0 := by
  simp [TendonNonlinear.compute_stress, TendonNonlinear.set_linear_mode,
    clampQ_zero_zero]
